import Mathlib

/-!
Shallow embedding of the flight-tracker request handlers.

Sources embedded:
* `src/app/api/flights/route.ts` — flight-status search handler
  (`mapStatus`, `formatTimezone`, `transformFlight`, `GET`).
* the fare-pricing handler (`transformPricingData`, `GET`).
* the routes handler (`transformRoute`, `GET`).

Conventions of the embedding:
* JS `string | undefined` request parameters are `Option String`;
  a JS falsy check `!x` on such a value is "`none` or the empty string".
* JS numbers that only flow through comparisons and pass-through fields
  are modelled as `Int`.
* The `Intl.DateTimeFormat` runtime is an explicit oracle parameter
  `IntlRuntime`: `Except` error represents a thrown exception, success
  returns the list of format parts.
* Outbound `fetch` calls are explicit parameters of the handler
  functions: `Except Unit payload`, where `Except.error` represents a
  thrown exception (caught by the handler's `try/catch`).
* JS `Array.prototype.sort` is stable (ECMA-262); it is modelled by
  `List.insertionSort`, which inserts each element before the first
  strictly-greater one and therefore keeps ties in input order.
-/

/-- JS falsy test for a `string | null | undefined` value:
`none` (null/undefined) and the empty string are falsy. -/
def jsStrFalsy (s : Option String) : Bool :=
  match s with
  | none => true
  | some v => v == ""

/-- JS `s.toUpperCase()` (ASCII range), computed on the character list so
that it reduces in the kernel. -/
def jsToUpper (s : String) : String :=
  ⟨s.data.map (fun c => if 'a' ≤ c && c ≤ 'z' then Char.ofNat (c.toNat - 32)
    else c)⟩

/-- JS `s.trim()`: strip leading and trailing whitespace. -/
def jsTrim (s : String) : String :=
  ⟨((s.data.dropWhile Char.isWhitespace).reverse.dropWhile
    Char.isWhitespace).reverse⟩

/-- `searchParams.get(p)?.toUpperCase().trim()` collapsed to a `String`:
`none` becomes `""` (both are falsy and the value is only used when truthy). -/
def normParam (p : Option String) : String :=
  match p with
  | some s => jsTrim (jsToUpper s)
  | none => ""

/-- `searchParams.get(p) || ''` for parameters read without normalization. -/
def rawParam (p : Option String) : String :=
  p.getD ""

/-! ## Search handler (`src/app/api/flights/route.ts`) -/

/-- `AviationStackFlight.departure` object. -/
structure ASFlightDeparture where
  airport : String
  timezone : String
  iata : String
  icao : String
  terminal : Option String
  gate : Option String
  delay : Option Int
  scheduled : String
  estimated : String
  actual : Option String
deriving DecidableEq

/-- `AviationStackFlight.arrival` object. -/
structure ASFlightArrival where
  airport : String
  timezone : String
  iata : String
  icao : String
  terminal : Option String
  gate : Option String
  baggage : Option String
  delay : Option Int
  scheduled : String
  estimated : String
  actual : Option String
deriving DecidableEq

/-- `AviationStackFlight.airline` object. -/
structure ASAirline where
  name : String
  iata : String
  icao : String
deriving DecidableEq

/-- `AviationStackFlight.flight` object (`codeshared: unknown` is never read). -/
structure ASFlightNumber where
  number : String
  iata : String
  icao : String
  codeshared : Option String
deriving DecidableEq

/-- `AviationStackFlight.live` object. -/
structure ASLive where
  updated : String
  latitude : Int
  longitude : Int
  altitude : Int
  direction : Int
  speed_horizontal : Int
  speed_vertical : Int
  is_ground : Bool
deriving DecidableEq

/-- Provider-side `AviationStackFlight` record. -/
structure AviationStackFlight where
  flight_date : String
  flight_status : String
  departure : ASFlightDeparture
  arrival : ASFlightArrival
  airline : ASAirline
  flight : ASFlightNumber
  live : Option ASLive
deriving DecidableEq

/-- Internal `Flight` departure/arrival leg. -/
structure FlightLeg where
  airport : String
  city : String
  time : String
  timezone : String
deriving DecidableEq

/-- Internal `Flight.live` telemetry. -/
structure LiveData where
  latitude : Int
  longitude : Int
  altitude : Int
  speed : Int
  updated : String
deriving DecidableEq

/-- Internal `Flight` record; `status` holds one of the union's literals. -/
structure Flight where
  id : String
  flightNumber : String
  airline : String
  departure : FlightLeg
  arrival : FlightLeg
  status : String
  live : Option LiveData
deriving DecidableEq

/-- `(depDelay && depDelay > 15)`: the JS truthiness test on the number
(non-null and non-zero) conjoined with the comparison. -/
def delayTriggers (delay : Option Int) : Bool :=
  match delay with
  | none => false
  | some d => d != 0 && decide (d > 15)

/-- `mapStatus(apiStatus, depDelay, arrDelay)` from `route.ts`.
`apiStatus?.toLowerCase() || 'scheduled'` maps the empty string to
`"scheduled"`; the delay check precedes the status switch. -/
def mapStatus (apiStatus : String) (depDelay arrDelay : Option Int) : String :=
  let status := if apiStatus = "" then "scheduled" else apiStatus.toLower
  if delayTriggers depDelay || delayTriggers arrDelay then "delayed"
  else match status with
  | "scheduled" => "scheduled"
  | "active" => "in-flight"
  | "landed" => "landed"
  | "cancelled" => "cancelled"
  | "incident" => "delayed"
  | "diverted" => "delayed"
  | _ => "scheduled"

/-- One part returned by `Intl.DateTimeFormat.formatToParts`. -/
structure IntlPart where
  type : String
  value : String
deriving DecidableEq

/-- The `Intl.DateTimeFormat` runtime as an oracle: for a timezone name it
either throws (`Except.error`, e.g. unknown zone) or yields format parts. -/
abbrev IntlRuntime := String → Except String (List IntlPart)

/-- `parts.find(p => p.type === 'timeZoneName')?.value || ''`. -/
def tzAbbrOf (parts : List IntlPart) : String :=
  match parts.find? (fun p => p.type == "timeZoneName") with
  | some p => if p.value = "" then "" else p.value
  | none => ""

/-- `formatTimezone(tz)` from `route.ts`: empty input short-circuits to
`''`; a thrown `Intl` error is caught and the raw name returned. -/
def formatTimezone (intl : IntlRuntime) (tz : String) : String :=
  if tz = "" then ""
  else match intl tz with
  | Except.error _ => tz
  | Except.ok parts => tz ++ " (" ++ tzAbbrOf parts ++ ")"

/-- `transformFlight(apiFlight, index)` from `route.ts`. -/
def transformFlight (intl : IntlRuntime) (apiFlight : AviationStackFlight)
    (index : Nat) : Flight :=
  { id := apiFlight.flight.iata ++ "-" ++ toString index
    flightNumber :=
      if apiFlight.flight.iata = "" then
        apiFlight.airline.iata ++ apiFlight.flight.number
      else apiFlight.flight.iata
    airline := apiFlight.airline.name
    departure :=
      { airport := apiFlight.departure.iata
        city := apiFlight.departure.airport
        time := apiFlight.departure.scheduled
        timezone := formatTimezone intl apiFlight.departure.timezone }
    arrival :=
      { airport := apiFlight.arrival.iata
        city := apiFlight.arrival.airport
        time := apiFlight.arrival.scheduled
        timezone := formatTimezone intl apiFlight.arrival.timezone }
    status := mapStatus apiFlight.flight_status apiFlight.departure.delay
      apiFlight.arrival.delay
    live := apiFlight.live.map (fun l =>
      { latitude := l.latitude
        longitude := l.longitude
        altitude := l.altitude
        speed := l.speed_horizontal
        updated := l.updated }) }

/-- `[A-Z]` of the source regexes: ASCII uppercase letter. -/
def isUpperAZ (c : Char) : Bool :=
  'A' ≤ c && c ≤ 'Z'

/-- `/^[A-Z]{2}\d+$/.test(s)`: two uppercase letters then one or more digits. -/
def matchesFlightNumberPattern (s : String) : Bool :=
  match s.data with
  | a :: b :: rest =>
      isUpperAZ a && isUpperAZ b && !rest.isEmpty && rest.all Char.isDigit
  | _ => false

/-- `/^[A-Z]{3}$/.test(s)`: exactly three uppercase letters. -/
def matchesAirportPattern (s : String) : Bool :=
  match s.data with
  | [a, b, c] => isUpperAZ a && isUpperAZ b && isUpperAZ c
  | _ => false

/-- Which provider query parameter the search `GET` sets for the query. -/
inductive SearchParam where
  | flightIata
  | depIata
  | airlineIata
deriving DecidableEq

/-- The query classifier inside the search `GET` handler, in source order:
flight-number pattern, then airport pattern, then length-2 airline code,
then the flight-number fallback. -/
def classifyQuery (q : String) : SearchParam :=
  if matchesFlightNumberPattern q then SearchParam.flightIata
  else if matchesAirportPattern q then SearchParam.depIata
  else if q.length = 2 then SearchParam.airlineIata
  else SearchParam.flightIata

/-- Outcome of the search `GET` handler before/instead of the upstream call. -/
inductive SearchPreflight where
  | respondFlights (status : Nat) (flights : List Flight)
  | reject (status : Nat) (error : String)
  | callUpstream (param : SearchParam) (query : String) (flightDate : String)
deriving DecidableEq

/-- `true` exactly on the branch that performs the upstream `fetch`. -/
def SearchPreflight.sendsUpstream : SearchPreflight → Bool
  | SearchPreflight.callUpstream _ _ _ => true
  | _ => false

/-- The search `GET` handler of `route.ts` up to the upstream call:
empty query returns `{flights: []}` (HTTP 200), then the API-key check,
then the classifier chooses the provider parameter. -/
def searchGETPreflight (qParam dateParam : Option String)
    (apiKey : Option String) : SearchPreflight :=
  let query := normParam qParam
  let flightDate := rawParam dateParam
  if query = "" then SearchPreflight.respondFlights 200 []
  else if jsStrFalsy apiKey then
    SearchPreflight.reject 500
      "Aviation Stack API key not configured. Please set AVIATIONSTACK_API_KEY environment variable."
  else SearchPreflight.callUpstream (classifyQuery query) query flightDate

/-! ## Pricing handler (fare-pricing route) -/

/-- `FlightApiPricingOption.price` object. -/
structure FlightApiPrice where
  amount : Int
  update_status : String
deriving DecidableEq

/-- `FlightApiPricingOption.items` element. -/
structure FlightApiItem where
  url : String
deriving DecidableEq

/-- Provider pricing option; the code reads `price` through `?.`, so it is
optional here. -/
structure FlightApiPricingOption where
  price : Option FlightApiPrice
  agent_ids : List String
  items : List FlightApiItem
deriving DecidableEq

/-- Provider itinerary leg. -/
structure FlightApiLeg where
  id : String
  origin_place_id : Nat
  destination_place_id : Nat
  departure : String
  arrival : String
  duration : Int
  stop_count : Int
  marketing_carrier_ids : List Nat
deriving DecidableEq

/-- Provider itinerary. -/
structure FlightApiItinerary where
  id : String
  pricing_options : List FlightApiPricingOption
  legs : List FlightApiLeg
deriving DecidableEq

/-- Provider place record. -/
structure FlightApiPlace where
  id : Nat
  iata : String
  name : String
  type : String
deriving DecidableEq

/-- Provider carrier record. -/
structure FlightApiCarrier where
  id : Nat
  name : String
  iata : String
deriving DecidableEq

/-- Provider response; the `Record<string, _>` lookup tables keyed by
numeric ids are association lists. -/
structure FlightApiResponse where
  itineraries : List FlightApiItinerary
  places : List (Nat × FlightApiPlace)
  carriers : List (Nat × FlightApiCarrier)
  currency : String
deriving DecidableEq

/-- Internal `PriceResult` departure/arrival leg. -/
structure PriceLeg where
  airport : String
  airportName : String
  time : String
deriving DecidableEq

/-- Internal `PriceResult` record. -/
structure PriceResult where
  id : String
  price : Int
  currency : String
  airline : String
  airlineCode : String
  departure : PriceLeg
  arrival : PriceLeg
  duration : Int
  stops : Int
  bookingUrl : String
deriving DecidableEq

/-- JS `s.startsWith(p)`, computed on the character lists so that it
reduces in the kernel. -/
def jsStartsWith (s p : String) : Bool :=
  p.data.isPrefixOf s.data

/-- The loop body of `transformPricingData` for one itinerary: `continue`
(here `none`) when the first pricing option or first leg is absent,
otherwise the pushed `PriceResult`. `x?.f || ''` lookups appear as
`Option` lookups defaulted to `""`; `carrier?.name || 'Unknown Airline'`
defaults the airline name. -/
def transformItinerary (places : List (Nat × FlightApiPlace))
    (carriers : List (Nat × FlightApiCarrier)) (currency : String)
    (itinerary : FlightApiItinerary) : Option PriceResult :=
  match itinerary.pricing_options.head? with
  | none => none
  | some pricingOption =>
    match itinerary.legs.head? with
    | none => none
    | some leg =>
      let originPlace := places.lookup leg.origin_place_id
      let destPlace := places.lookup leg.destination_place_id
      let carrier := leg.marketing_carrier_ids.head?.bind
        (fun cid => carriers.lookup cid)
      let bookingUrl :=
        match pricingOption.items.head? with
        | some item =>
            if item.url = "" then ""
            else if jsStartsWith item.url "http" then item.url
            else "https://www.skyscanner.com" ++ item.url
        | none => ""
      some
        { id := itinerary.id
          price := match pricingOption.price with
            | some p => p.amount
            | none => 0
          currency := currency
          airline := match carrier with
            | some c => if c.name = "" then "Unknown Airline" else c.name
            | none => "Unknown Airline"
          airlineCode := (carrier.map FlightApiCarrier.iata).getD ""
          departure :=
            { airport := (originPlace.map FlightApiPlace.iata).getD ""
              airportName := (originPlace.map FlightApiPlace.name).getD ""
              time := leg.departure }
          arrival :=
            { airport := (destPlace.map FlightApiPlace.iata).getD ""
              airportName := (destPlace.map FlightApiPlace.name).getD ""
              time := leg.arrival }
          duration := leg.duration
          stops := leg.stop_count
          bookingUrl := bookingUrl }

/-- `data.currency || 'USD'`. -/
def pricingCurrency (data : FlightApiResponse) : String :=
  if data.currency = "" then "USD" else data.currency

/-- The `results` array of `transformPricingData` just before the final
`results.sort(...)`: the itineraries in provider order, skipped ones
removed. -/
def pricingResultsUnsorted (data : FlightApiResponse) : List PriceResult :=
  data.itineraries.filterMap
    (transformItinerary data.places data.carriers (pricingCurrency data))

/-- The sort order of `results.sort((a, b) => a.price - b.price)`. -/
def priceLE (a b : PriceResult) : Prop :=
  a.price ≤ b.price

instance : DecidableRel priceLE :=
  fun a b => inferInstanceAs (Decidable (a.price ≤ b.price))

instance : IsTotal PriceResult priceLE :=
  ⟨fun a b => Int.le_total a.price b.price⟩

instance : IsTrans PriceResult priceLE :=
  ⟨fun _ _ _ hab hbc => Int.le_trans hab hbc⟩

/-- `transformPricingData(data)`: build the results, then sort ascending by
price. `Array.prototype.sort` is stable per ECMA-262, so it is modelled by
the stable `List.insertionSort`. -/
def transformPricingData (data : FlightApiResponse) : List PriceResult :=
  List.insertionSort priceLE (pricingResultsUnsorted data)

/-- `/^\d{4}-\d{2}-\d{2}$/.test(s)`. -/
def matchesDatePattern (s : String) : Bool :=
  match s.data with
  | [y1, y2, y3, y4, h1, m1, m2, h2, d1, d2] =>
      y1.isDigit && y2.isDigit && y3.isDigit && y4.isDigit && h1 == '-' &&
      m1.isDigit && m2.isDigit && h2 == '-' && d1.isDigit && d2.isDigit
  | _ => false

/-- Outcome of the pricing `GET` handler before/instead of the upstream call. -/
inductive PricingPreflight where
  | reject (status : Nat) (error : String)
  | callUpstream (url : String)
deriving DecidableEq

/-- `true` exactly on the branch that performs the upstream `fetch`. -/
def PricingPreflight.sendsUpstream : PricingPreflight → Bool
  | PricingPreflight.callUpstream _ => true
  | _ => false

/-- `searchParams.get('adults') || '1'` and `.get('currency') || 'USD'`. -/
def paramOr (p : Option String) (dflt : String) : String :=
  match p with
  | some v => if v = "" then dflt else v
  | none => dflt

/-- The pricing `GET` handler up to the upstream call, in source order:
presence check for `from`/`to`/`date`, IATA pattern check, date pattern
check, then the API-key check, then the provider URL is built. -/
def pricingGETPreflight (fromParam toParam dateParam adultsParam
    currencyParam : Option String) (apiKey : Option String) :
    PricingPreflight :=
  let fromQ := normParam fromParam
  let toQ := normParam toParam
  let dateQ := rawParam dateParam
  let adults := paramOr adultsParam "1"
  let currency := paramOr currencyParam "USD"
  if fromQ == "" || toQ == "" || dateQ == "" then
    PricingPreflight.reject 400 "Missing required parameters: from, to, date"
  else if !matchesAirportPattern fromQ || !matchesAirportPattern toQ then
    PricingPreflight.reject 400
      "Invalid airport code. Use 3-letter IATA codes (e.g., JFK, LAX)"
  else if !matchesDatePattern dateQ then
    PricingPreflight.reject 400 "Invalid date format. Use YYYY-MM-DD"
  else if jsStrFalsy apiKey then
    PricingPreflight.reject 500
      "FlightAPI.io API key not configured. Please set FLIGHTAPI_KEY environment variable."
  else
    PricingPreflight.callUpstream
      ("https://api.flightapi.io" ++ "/onewaytrip/" ++ apiKey.getD "" ++ "/" ++
        fromQ ++ "/" ++ toQ ++ "/" ++ dateQ ++ "/" ++ adults ++
        "/0/0/Economy/" ++ currency)

/-! ## Routes handler -/

/-- `AviationStackRoute.departure` / `.arrival` object. -/
structure ASRouteLeg where
  airport : String
  timezone : String
  iata : String
  icao : String
  terminal : Option String
  time : String
deriving DecidableEq

/-- `AviationStackRoute.airline` object. -/
structure ASRouteAirline where
  name : String
  callsign : String
  iata : String
  icao : String
deriving DecidableEq

/-- `AviationStackRoute.flight` object. -/
structure ASRouteFlight where
  number : String
deriving DecidableEq

/-- Provider-side `AviationStackRoute` record. -/
structure AviationStackRoute where
  departure : ASRouteLeg
  arrival : ASRouteLeg
  airline : ASRouteAirline
  flight : ASRouteFlight
deriving DecidableEq

/-- Internal `FlightRoute` departure/arrival leg. -/
structure FlightRouteLeg where
  airport : String
  airportName : String
  time : String
  timezone : String
  terminal : Option String
deriving DecidableEq

/-- Internal `FlightRoute` record. -/
structure FlightRoute where
  id : String
  flightNumber : String
  airline : String
  airlineCode : String
  departure : FlightRouteLeg
  arrival : FlightRouteLeg
deriving DecidableEq

/-- `transformRoute(route, index)` from the routes handler. -/
def transformRoute (route : AviationStackRoute) (index : Nat) : FlightRoute :=
  { id := route.airline.iata ++ route.flight.number ++ "-" ++ toString index
    flightNumber := route.airline.iata ++ route.flight.number
    airline := route.airline.name
    airlineCode := route.airline.iata
    departure :=
      { airport := route.departure.iata
        airportName := route.departure.airport
        time := route.departure.time
        timezone := route.departure.timezone
        terminal := route.departure.terminal }
    arrival :=
      { airport := route.arrival.iata
        airportName := route.arrival.airport
        time := route.arrival.time
        timezone := route.arrival.timezone
        terminal := route.arrival.terminal } }

/-- The `error` object of an Aviation Stack payload; `message` is read
through `.message || <fallback>`. -/
structure RoutesApiError where
  message : Option String
deriving DecidableEq

/-- JSON payload of one `/routes` fetch: optional `error`, optional `data`. -/
structure RoutesPayload where
  error : Option RoutesApiError
  data : Option (List AviationStackRoute)
deriving DecidableEq

/-- One direction block of the routes handler's success body. -/
structure RouteDirection where
  routes : List FlightRoute
  origin : String
  destination : String
  date : String
deriving DecidableEq

/-- Response of the routes `GET` handler. -/
inductive RoutesResponse where
  | errorResp (status : Nat) (error : String)
  | success (outbound : RouteDirection) (ret : Option RouteDirection)
deriving DecidableEq

/-- `true` exactly on the handler's error responses. -/
def RoutesResponse.isError : RoutesResponse → Bool
  | RoutesResponse.errorResp _ _ => true
  | _ => false

/-- `outboundData.error.message || 'Failed to fetch flight routes'`. -/
def routesErrorMessage (e : RoutesApiError) : String :=
  match e.message with
  | some m => if m = "" then "Failed to fetch flight routes" else m
  | none => "Failed to fetch flight routes"

/-- The routes `GET` handler. The two `fetch`es are the `outboundFetch` and
`returnFetch` parameters (`Except.error` = thrown, caught by the handler's
`try/catch` as a 500). An error payload on the outbound call returns 400;
an error payload on the return call only skips the assignment of
`returnRoutes`, so the handler still succeeds. -/
def routesGET (originParam destinationParam departureDateParam
    returnDateParam : Option String) (apiKey : Option String)
    (outboundFetch returnFetch : Except Unit RoutesPayload) : RoutesResponse :=
  let origin := normParam originParam
  let destination := normParam destinationParam
  let departureDate := rawParam departureDateParam
  let returnDate := rawParam returnDateParam
  if origin == "" || destination == "" then
    RoutesResponse.errorResp 400 "Both origin and destination are required"
  else if jsStrFalsy apiKey then
    RoutesResponse.errorResp 500 "Aviation Stack API key not configured"
  else
    match outboundFetch with
    | Except.error _ =>
        RoutesResponse.errorResp 500
          "Failed to fetch flight routes. Please try again."
    | Except.ok outboundData =>
      match outboundData.error with
      | some e => RoutesResponse.errorResp 400 (routesErrorMessage e)
      | none =>
        let outboundRoutes := (outboundData.data.getD []).mapIdx
          (fun i r => transformRoute r i)
        if returnDate == "" then
          RoutesResponse.success
            ⟨outboundRoutes, origin, destination, departureDate⟩ none
        else
          match returnFetch with
          | Except.error _ =>
              RoutesResponse.errorResp 500
                "Failed to fetch flight routes. Please try again."
          | Except.ok returnData =>
            let returnRoutes :=
              if returnData.error.isSome then ([] : List FlightRoute)
              else (returnData.data.getD []).mapIdx
                (fun i r => transformRoute r i)
            RoutesResponse.success
              ⟨outboundRoutes, origin, destination, departureDate⟩
              (some ⟨returnRoutes, destination, origin, returnDate⟩)

/-! ## Stability of the price sort -/

lemma pricing_filter_orderedInsert_eq (v : Int) (x : PriceResult)
    (hx : x.price = v) :
    ∀ l : List PriceResult,
      (List.orderedInsert priceLE x l).filter (fun r => r.price == v) =
        x :: l.filter (fun r => r.price == v)
  | [] => by simp [List.orderedInsert, hx]
  | y :: ys => by
    by_cases h : priceLE x y
    · simp [List.orderedInsert, h, hx]
    · have hlt : y.price < x.price := by
        have h' : ¬ x.price ≤ y.price := h
        omega
      have hyv : (y.price == v) = false := beq_eq_false_iff_ne.mpr (by omega)
      simp [List.orderedInsert, h, hyv,
        pricing_filter_orderedInsert_eq v x hx ys]

lemma pricing_filter_orderedInsert_ne (v : Int) (x : PriceResult)
    (hx : x.price ≠ v) :
    ∀ l : List PriceResult,
      (List.orderedInsert priceLE x l).filter (fun r => r.price == v) =
        l.filter (fun r => r.price == v)
  | [] => by
    have hxv : (x.price == v) = false := beq_eq_false_iff_ne.mpr hx
    simp [List.orderedInsert, hxv]
  | y :: ys => by
    have hxv : (x.price == v) = false := beq_eq_false_iff_ne.mpr hx
    by_cases h : priceLE x y
    · simp [List.orderedInsert, h, hxv]
    · simp only [List.orderedInsert, if_neg h, List.filter_cons,
        pricing_filter_orderedInsert_ne v x hx ys]

lemma pricing_filter_insertionSort (v : Int) :
    ∀ l : List PriceResult,
      (List.insertionSort priceLE l).filter (fun r => r.price == v) =
        l.filter (fun r => r.price == v)
  | [] => rfl
  | x :: xs => by
    by_cases hx : x.price = v
    · rw [List.insertionSort, pricing_filter_orderedInsert_eq v x hx,
        pricing_filter_insertionSort v xs]
      simp [hx]
    · rw [List.insertionSort, pricing_filter_orderedInsert_ne v x hx,
        pricing_filter_insertionSort v xs]
      have hxv : (x.price == v) = false := beq_eq_false_iff_ne.mpr hx
      simp [hxv]

/-! ## Claim theorems -/

/-- C1: for every provider status string and every pair of optional delay
values, if either delay is greater than 15 minutes then `mapStatus`
returns `"delayed"`, regardless of the provider status string. -/
theorem mapStatus_delay_overrides (apiStatus : String)
    (depDelay arrDelay : Option Int)
    (h : (∃ d, depDelay = some d ∧ d > 15) ∨
      (∃ d, arrDelay = some d ∧ d > 15)) :
    mapStatus apiStatus depDelay arrDelay = "delayed" := by
  rcases h with ⟨d, hd, hgt⟩ | ⟨d, hd, hgt⟩ <;> subst hd
  · have ht : delayTriggers (some d) = true := by
      simp [delayTriggers]
      omega
    simp [mapStatus, ht]
  · have ht : delayTriggers (some d) = true := by
      simp [delayTriggers]
      omega
    simp [mapStatus, ht]

/-- Witness for C1: provider status `"active"` with arrival delay 20 maps
to `"delayed"`. -/
theorem mapStatus_delay_overrides_w :
    mapStatus "active" none (some 20) = "delayed" :=
  mapStatus_delay_overrides "active" none (some 20)
    (Or.inr ⟨20, rfl, by decide⟩)

/-- C2: the classifier applies its rules in source order — the
flight-number pattern first, then the 3-letter airport pattern, then the
length-2 airline-code rule, and otherwise the flight-number fallback; no
query is rejected. -/
theorem classifyQuery_rule_order (q : String) :
    (matchesFlightNumberPattern q = true →
      classifyQuery q = SearchParam.flightIata) ∧
    (matchesFlightNumberPattern q = false → matchesAirportPattern q = true →
      classifyQuery q = SearchParam.depIata) ∧
    (matchesFlightNumberPattern q = false → matchesAirportPattern q = false →
      q.length = 2 → classifyQuery q = SearchParam.airlineIata) ∧
    (matchesFlightNumberPattern q = false → matchesAirportPattern q = false →
      q.length ≠ 2 → classifyQuery q = SearchParam.flightIata) := by
  refine ⟨?_, ?_, ?_, ?_⟩
  · intro h1
    simp [classifyQuery, h1]
  · intro h1 h2
    simp [classifyQuery, h1, h2]
  · intro h1 h2 h3
    simp [classifyQuery, h1, h2, h3]
  · intro h1 h2 h3
    simp [classifyQuery, h1, h2, h3]

/-- Witness for C2: one concrete query per rule, in order. -/
theorem classifyQuery_rule_order_w :
    classifyQuery "AA100" = SearchParam.flightIata ∧
    classifyQuery "JFK" = SearchParam.depIata ∧
    classifyQuery "UA" = SearchParam.airlineIata ∧
    classifyQuery "A1B2" = SearchParam.flightIata :=
  ⟨(classifyQuery_rule_order "AA100").1 (by decide),
   (classifyQuery_rule_order "JFK").2.1 (by decide) (by decide),
   (classifyQuery_rule_order "UA").2.2.1 (by decide) (by decide) (by decide),
   (classifyQuery_rule_order "A1B2").2.2.2 (by decide) (by decide) (by decide)⟩

/-- C3: for every provider response, `transformPricingData` is sorted
ascending by `price`, and for every price value the equal-price items keep
the relative order the surviving itineraries had in the provider's input
array (stability, stated as filter preservation against the pre-sort
list). -/
theorem transformPricingData_sorted_stable (data : FlightApiResponse) :
    List.Pairwise priceLE (transformPricingData data) ∧
    ∀ v : Int,
      (transformPricingData data).filter (fun r => r.price == v) =
        (pricingResultsUnsorted data).filter (fun r => r.price == v) := by
  constructor
  · exact List.sorted_insertionSort priceLE (pricingResultsUnsorted data)
  · intro v
    exact pricing_filter_insertionSort v (pricingResultsUnsorted data)

lemma transformItinerary_id (places : List (Nat × FlightApiPlace))
    (carriers : List (Nat × FlightApiCarrier)) (currency : String)
    (itin : FlightApiItinerary) (r : PriceResult)
    (h : transformItinerary places carriers currency itin = some r) :
    r.id = itin.id := by
  unfold transformItinerary at h
  rcases hpo : itin.pricing_options.head? with _ | po <;> rw [hpo] at h
  · simp at h
  · rcases hleg : itin.legs.head? with _ | leg <;> rw [hleg] at h
    · simp at h
    · simp only [Option.some.injEq] at h
      rw [← h]

/-- Concrete pricing response for C4: one itinerary whose provider id is an
external identifier, with resolvable place and carrier lookups. -/
def c4Response : FlightApiResponse :=
  { itineraries :=
      [{ id := "external-itin-9f2"
         pricing_options :=
           [{ price := some { amount := 250, update_status := "current" }
              agent_ids := ["ag1"]
              items := [{ url := "/transport_deeplink" }] }]
         legs :=
           [{ id := "leg1"
              origin_place_id := 1
              destination_place_id := 2
              departure := "2026-03-01T08:00"
              arrival := "2026-03-01T11:00"
              duration := 180
              stop_count := 0
              marketing_carrier_ids := [7] }] }]
    places := [(1, { id := 1, iata := "JFK", name := "New York JFK",
                     type := "Airport" }),
               (2, { id := 2, iata := "LAX", name := "Los Angeles",
                     type := "Airport" })]
    carriers := [(7, { id := 7, name := "American Airlines", iata := "AA" })]
    currency := "USD" }

/-- The single result `transformPricingData` produces for `c4Response`. -/
def c4Result : PriceResult :=
  { id := "external-itin-9f2"
    price := 250
    currency := "USD"
    airline := "American Airlines"
    airlineCode := "AA"
    departure := { airport := "JFK", airportName := "New York JFK",
                   time := "2026-03-01T08:00" }
    arrival := { airport := "LAX", airportName := "Los Angeles",
                 time := "2026-03-01T11:00" }
    duration := 180
    stops := 0
    bookingUrl := "https://www.skyscanner.com/transport_deeplink" }

/-- C4 counterexample: on `c4Response` the price transform's result keeps
the provider-supplied itinerary id `"external-itin-9f2"`, which is not the
carrier code `"AA"` concatenated with the index `0`. -/
theorem priceResult_id_not_synthesized :
    (transformPricingData c4Response).map (fun r => r.id) =
      ["external-itin-9f2"] ∧
    (transformPricingData c4Response).map (fun r => r.airlineCode) =
      ["AA"] ∧
    "external-itin-9f2" ≠ "AA" ++ toString 0 := by
  refine ⟨rfl, rfl, by decide⟩

/-- C4 (amended): the flight-search transform synthesizes
`{flight-iata}-{index}`, the routes transform synthesizes
`{airline-iata}{flight-number}-{index}`, but every price-transform result
keeps the provider-supplied id of its source itinerary. -/
theorem transform_id_shapes (intl : IntlRuntime) (f : AviationStackFlight)
    (i : Nat) (route : AviationStackRoute) (j : Nat)
    (data : FlightApiResponse) (r : PriceResult)
    (hr : r ∈ transformPricingData data) :
    (transformFlight intl f i).id = f.flight.iata ++ "-" ++ toString i ∧
    (transformRoute route j).id =
      route.airline.iata ++ route.flight.number ++ "-" ++ toString j ∧
    ∃ itin ∈ data.itineraries, r.id = itin.id := by
  refine ⟨rfl, rfl, ?_⟩
  have hr' : r ∈ pricingResultsUnsorted data :=
    (List.perm_insertionSort priceLE (pricingResultsUnsorted data)).mem_iff.mp
      hr
  rcases List.mem_filterMap.mp hr' with ⟨itin, hmem, heq⟩
  exact ⟨itin, hmem, transformItinerary_id _ _ _ _ _ heq⟩

/-- Concrete provider flight record used by the C4 witness. -/
def c4SampleFlight : AviationStackFlight :=
  { flight_date := "2026-03-01"
    flight_status := "active"
    departure :=
      { airport := "John F Kennedy Intl"
        timezone := "America/New_York"
        iata := "JFK"
        icao := "KJFK"
        terminal := some "4"
        gate := some "B20"
        delay := none
        scheduled := "2026-03-01T08:00"
        estimated := "2026-03-01T08:00"
        actual := none }
    arrival :=
      { airport := "Los Angeles Intl"
        timezone := "America/Los_Angeles"
        iata := "LAX"
        icao := "KLAX"
        terminal := some "5"
        gate := none
        baggage := none
        delay := none
        scheduled := "2026-03-01T11:00"
        estimated := "2026-03-01T11:00"
        actual := none }
    airline := { name := "American Airlines", iata := "AA", icao := "AAL" }
    flight :=
      { number := "100"
        iata := "AA100"
        icao := "AAL100"
        codeshared := none }
    live := none }

/-- Concrete provider route record used by the C4 witness. -/
def c4SampleRoute : AviationStackRoute :=
  { departure :=
      { airport := "John F Kennedy Intl"
        timezone := "America/New_York"
        iata := "JFK"
        icao := "KJFK"
        terminal := some "4"
        time := "08:00:00" }
    arrival :=
      { airport := "Los Angeles Intl"
        timezone := "America/Los_Angeles"
        iata := "LAX"
        icao := "KLAX"
        terminal := some "5"
        time := "11:00:00" }
    airline :=
      { name := "American Airlines"
        callsign := "AMERICAN"
        iata := "AA"
        icao := "AAL" }
    flight := { number := "100" } }

/-- Witness for the amended C4 at concrete inputs. -/
theorem transform_id_shapes_w :
    (transformFlight (fun _ => Except.error "err") c4SampleFlight 0).id =
      c4SampleFlight.flight.iata ++ "-" ++ toString 0 ∧
    (transformRoute c4SampleRoute 1).id =
      c4SampleRoute.airline.iata ++ c4SampleRoute.flight.number ++ "-" ++
        toString 1 ∧
    ∃ itin ∈ c4Response.itineraries, c4Result.id = itin.id :=
  transform_id_shapes (fun _ => Except.error "err") c4SampleFlight 0
    c4SampleRoute 1 c4Response c4Result
    (by
      have h : transformPricingData c4Response = [c4Result] := by decide
      rw [h]
      exact List.mem_singleton_self c4Result)

lemma matchesAirportPattern_ne_empty {s : String}
    (h : matchesAirportPattern s = true) : s ≠ "" := by
  intro he
  rw [he] at h
  exact absurd h (by decide)

lemma matchesDatePattern_ne_empty {s : String}
    (h : matchesDatePattern s = true) : s ≠ "" := by
  intro he
  rw [he] at h
  exact absurd h (by decide)

/-- C5 counterexample: with the provider API key absent and the request
input invalid (all pricing parameters missing), the pricing handler
returns the 400 validation error, not the 500 configuration error — the
validation checks run before the key check. -/
theorem missing_key_invalid_input_400 :
    pricingGETPreflight none none none none none none =
      PricingPreflight.reject 400
        "Missing required parameters: from, to, date" ∧
    pricingGETPreflight none none none none none none ≠
      PricingPreflight.reject 500
        "FlightAPI.io API key not configured. Please set FLIGHTAPI_KEY environment variable." := by
  refine ⟨rfl, by decide⟩

/-- C5 (amended): only once a handler's input validation passes (and, for
the search handler, the query is non-empty) does an absent provider API
key yield HTTP 500 with the handler's fixed configuration-error message;
with invalid input the validation response is returned instead. -/
theorem missing_key_gives_500_after_validation
    (fromP toP dateP adultsP currencyP pKey : Option String)
    (qP sDateP sKey : Option String)
    (originP destP depDateP retDateP rKey : Option String)
    (obF retF : Except Unit RoutesPayload)
    (hFrom : matchesAirportPattern (normParam fromP) = true)
    (hTo : matchesAirportPattern (normParam toP) = true)
    (hDate : matchesDatePattern (rawParam dateP) = true)
    (hpKey : jsStrFalsy pKey = true)
    (hQ : normParam qP ≠ "")
    (hsKey : jsStrFalsy sKey = true)
    (hOrigin : normParam originP ≠ "")
    (hDest : normParam destP ≠ "")
    (hrKey : jsStrFalsy rKey = true) :
    pricingGETPreflight fromP toP dateP adultsP currencyP pKey =
      PricingPreflight.reject 500
        "FlightAPI.io API key not configured. Please set FLIGHTAPI_KEY environment variable." ∧
    searchGETPreflight qP sDateP sKey =
      SearchPreflight.reject 500
        "Aviation Stack API key not configured. Please set AVIATIONSTACK_API_KEY environment variable." ∧
    routesGET originP destP depDateP retDateP rKey obF retF =
      RoutesResponse.errorResp 500 "Aviation Stack API key not configured" := by
  have hf : (normParam fromP == "") = false :=
    beq_eq_false_iff_ne.mpr (matchesAirportPattern_ne_empty hFrom)
  have ht : (normParam toP == "") = false :=
    beq_eq_false_iff_ne.mpr (matchesAirportPattern_ne_empty hTo)
  have hd : (rawParam dateP == "") = false :=
    beq_eq_false_iff_ne.mpr (matchesDatePattern_ne_empty hDate)
  have ho : (normParam originP == "") = false := beq_eq_false_iff_ne.mpr hOrigin
  have hde : (normParam destP == "") = false := beq_eq_false_iff_ne.mpr hDest
  refine ⟨?_, ?_, ?_⟩
  · simp [pricingGETPreflight, hf, ht, hd, hFrom, hTo, hDate, hpKey]
  · simp [searchGETPreflight, hQ, hsKey]
  · simp [routesGET, ho, hde, hrKey]

/-- Witness for the amended C5 at concrete inputs: valid parameters and
absent keys for all three handlers. -/
theorem missing_key_gives_500_after_validation_w :
    pricingGETPreflight (some "JFK") (some "LAX") (some "2026-03-01") none
      none none =
      PricingPreflight.reject 500
        "FlightAPI.io API key not configured. Please set FLIGHTAPI_KEY environment variable." ∧
    searchGETPreflight (some "AA100") none (some "") =
      SearchPreflight.reject 500
        "Aviation Stack API key not configured. Please set AVIATIONSTACK_API_KEY environment variable." ∧
    routesGET (some "JFK") (some "LAX") none none none (Except.error ())
      (Except.error ()) =
      RoutesResponse.errorResp 500 "Aviation Stack API key not configured" :=
  missing_key_gives_500_after_validation (some "JFK") (some "LAX")
    (some "2026-03-01") none none none (some "AA100") none (some "")
    (some "JFK") (some "LAX") none none none (Except.error ())
    (Except.error ()) (by decide) (by decide) (by decide) (by decide)
    (by decide) (by decide) (by decide) (by decide) (by decide)

/-- C7: a pricing request in which `from`, `to`, or `date` is absent or
empty is rejected with HTTP 400 and the message naming the required
parameters, and no upstream request is sent. -/
theorem pricing_missing_params_400 (fromP toP dateP adultsP currencyP
    key : Option String)
    (h : fromP = none ∨ fromP = some "" ∨ toP = none ∨ toP = some "" ∨
      dateP = none ∨ dateP = some "") :
    pricingGETPreflight fromP toP dateP adultsP currencyP key =
      PricingPreflight.reject 400
        "Missing required parameters: from, to, date" ∧
    (pricingGETPreflight fromP toP dateP adultsP currencyP
      key).sendsUpstream = false := by
  have hcond : (normParam fromP == "" || normParam toP == "" ||
      rawParam dateP == "") = true := by
    rcases h with rfl | rfl | rfl | rfl | rfl | rfl <;>
      simp [normParam, rawParam, jsToUpper, jsTrim]
  constructor
  · simp [pricingGETPreflight, hcond]
  · simp [pricingGETPreflight, hcond, PricingPreflight.sendsUpstream]

/-- Witness for C7: empty `from` with otherwise valid parameters. -/
theorem pricing_missing_params_400_w :
    pricingGETPreflight (some "") (some "LAX") (some "2026-03-01") none none
      (some "key123") =
      PricingPreflight.reject 400
        "Missing required parameters: from, to, date" ∧
    (pricingGETPreflight (some "") (some "LAX") (some "2026-03-01") none
      none (some "key123")).sendsUpstream = false :=
  pricing_missing_params_400 (some "") (some "LAX") (some "2026-03-01")
    none none (some "key123") (Or.inr (Or.inl rfl))

/-- The C6 itinerary: its place ids and carrier id will have no entry in
the lookup tables. -/
def c6Itinerary : FlightApiItinerary :=
  { id := "itin-unresolved"
    pricing_options :=
      [{ price := some { amount := 99, update_status := "current" }
         agent_ids := []
         items := [] }]
    legs :=
      [{ id := "leg9"
         origin_place_id := 11
         destination_place_id := 12
         departure := "2026-04-01T09:00"
         arrival := "2026-04-01T12:00"
         duration := 180
         stop_count := 1
         marketing_carrier_ids := [42] }] }

/-- Concrete pricing response for C6: empty lookup tables. -/
def c6Response : FlightApiResponse :=
  { itineraries := [c6Itinerary]
    places := []
    carriers := []
    currency := "USD" }

/-- C6 counterexample: with all lookups missing the item is still emitted,
but the airline-name field becomes `"Unknown Airline"`, not the empty
string the claim requires. -/
theorem missing_lookup_airline_not_empty :
    (transformPricingData c6Response).map (fun r => r.airline) =
      ["Unknown Airline"] ∧
    (transformPricingData c6Response).map (fun r => r.departure.airport) =
      [""] ∧
    "Unknown Airline" ≠ "" := by
  refine ⟨rfl, rfl, by decide⟩

/-- The first pricing option of `c6Itinerary`. -/
def c6Option : FlightApiPricingOption :=
  { price := some { amount := 99, update_status := "current" }
    agent_ids := []
    items := [] }

/-- The first leg of `c6Itinerary`. -/
def c6Leg : FlightApiLeg :=
  { id := "leg9"
    origin_place_id := 11
    destination_place_id := 12
    departure := "2026-04-01T09:00"
    arrival := "2026-04-01T12:00"
    duration := 180
    stop_count := 1
    marketing_carrier_ids := [42] }

/-- C6 (amended): an itinerary whose first pricing option and first leg
exist is always emitted; a missing origin/destination place lookup yields
empty-string airport fields, and a missing carrier lookup yields an empty
`airlineCode` but the airline name `"Unknown Airline"`. -/
theorem transformItinerary_missing_lookups
    (places : List (Nat × FlightApiPlace))
    (carriers : List (Nat × FlightApiCarrier)) (currency : String)
    (itin : FlightApiItinerary) (po : FlightApiPricingOption)
    (leg : FlightApiLeg)
    (hpo : itin.pricing_options.head? = some po)
    (hleg : itin.legs.head? = some leg) :
    ∃ r, transformItinerary places carriers currency itin = some r ∧
      (places.lookup leg.origin_place_id = none →
        r.departure.airport = "" ∧ r.departure.airportName = "") ∧
      (places.lookup leg.destination_place_id = none →
        r.arrival.airport = "" ∧ r.arrival.airportName = "") ∧
      (leg.marketing_carrier_ids.head?.bind
          (fun cid => carriers.lookup cid) = none →
        r.airline = "Unknown Airline" ∧ r.airlineCode = "") := by
  unfold transformItinerary
  rw [hpo, hleg]
  refine ⟨_, rfl, ?_, ?_, ?_⟩ <;> intro h <;> simp [h]

/-- Witness for the amended C6: `c6Response`'s single itinerary with its
empty lookup tables. -/
theorem transformItinerary_missing_lookups_w :
    ∃ r, transformItinerary [] [] "USD" c6Itinerary = some r ∧
      (List.lookup (c6Leg).origin_place_id
          ([] : List (Nat × FlightApiPlace)) = none →
        r.departure.airport = "" ∧ r.departure.airportName = "") ∧
      (List.lookup (c6Leg).destination_place_id
          ([] : List (Nat × FlightApiPlace)) = none →
        r.arrival.airport = "" ∧ r.arrival.airportName = "") ∧
      ((c6Leg).marketing_carrier_ids.head?.bind
          (fun cid => List.lookup cid ([] : List (Nat × FlightApiCarrier))) =
            none →
        r.airline = "Unknown Airline" ∧ r.airlineCode = "") :=
  transformItinerary_missing_lookups [] [] "USD" c6Itinerary c6Option c6Leg
    (by decide) (by decide)

/-- C8: `formatTimezone` is total over any `Intl` runtime behaviour: empty
input returns `""` without consulting the runtime, a thrown formatting
error is caught and the raw name returned, and success yields
`"<name> (<abbr>)"`; no exception escapes (the return type is `String`). -/
theorem formatTimezone_total_behavior (intl : IntlRuntime) (tz : String) :
    (tz = "" → formatTimezone intl tz = "") ∧
    (tz ≠ "" → ∀ e, intl tz = Except.error e →
      formatTimezone intl tz = tz) ∧
    (tz ≠ "" → ∀ parts, intl tz = Except.ok parts →
      formatTimezone intl tz = tz ++ " (" ++ tzAbbrOf parts ++ ")") := by
  refine ⟨?_, ?_, ?_⟩
  · intro h
    simp [formatTimezone, h]
  · intro h e he
    simp [formatTimezone, h, he]
  · intro h parts hp
    simp [formatTimezone, h, hp]

/-- An `Intl` format part used by the C8 witness. -/
def c8Part : IntlPart :=
  { type := "timeZoneName", value := "PST" }

/-- Witness for C8: a throwing runtime returns the raw name, a succeeding
runtime returns the name with the short abbreviation appended. -/
theorem formatTimezone_total_behavior_w :
    formatTimezone (fun _ => Except.error "RangeError") "Mars/Olympus" =
      "Mars/Olympus" ∧
    formatTimezone (fun _ => Except.ok [c8Part]) "America/Los_Angeles" =
      "America/Los_Angeles" ++ " (" ++ tzAbbrOf [c8Part] ++ ")" :=
  ⟨(formatTimezone_total_behavior (fun _ => Except.error "RangeError")
      "Mars/Olympus").2.1 (by decide) "RangeError" rfl,
   (formatTimezone_total_behavior (fun _ => Except.ok [c8Part])
      "America/Los_Angeles").2.2 (by decide) [c8Part] rfl⟩

/-- C9 counterexample: a routes request with a `returnDate` whose return
upstream call answers with an error payload still succeeds (HTTP 200)
with an empty return route list — the error payload is silently absorbed,
not surfaced. -/
theorem routes_return_error_absorbed :
    routesGET (some "JFK") (some "LAX") (some "2026-03-01")
      (some "2026-03-08") (some "key123")
      (Except.ok { error := none, data := some [] })
      (Except.ok { error := some { message := some "rate limit reached" },
                   data := none }) =
      RoutesResponse.success
        { routes := [], origin := "JFK", destination := "LAX",
          date := "2026-03-01" }
        (some { routes := [], origin := "LAX", destination := "JFK",
                date := "2026-03-08" }) ∧
    (routesGET (some "JFK") (some "LAX") (some "2026-03-01")
      (some "2026-03-08") (some "key123")
      (Except.ok { error := none, data := some [] })
      (Except.ok { error := some { message := some "rate limit reached" },
                   data := none })).isError = false := by
  refine ⟨rfl, rfl⟩

/-- C9 (amended): on a routes request with a `returnDate`, a thrown
exception during the return-leg fetch is surfaced as HTTP 500, but an
error payload from the return-leg call is silently absorbed: the handler
returns the success body with an empty return route list. -/
theorem routes_return_failure_behavior (originP destP depDateP retDateP
    key : Option String) (od : RoutesPayload)
    (hOrigin : normParam originP ≠ "") (hDest : normParam destP ≠ "")
    (hKey : jsStrFalsy key = false) (hod : od.error = none)
    (hret : rawParam retDateP ≠ "") :
    routesGET originP destP depDateP retDateP key (Except.ok od)
      (Except.error ()) =
      RoutesResponse.errorResp 500
        "Failed to fetch flight routes. Please try again." ∧
    ∀ rd : RoutesPayload, rd.error.isSome = true →
      routesGET originP destP depDateP retDateP key (Except.ok od)
        (Except.ok rd) =
        RoutesResponse.success
          { routes := (od.data.getD []).mapIdx (fun i r => transformRoute r i)
            origin := normParam originP
            destination := normParam destP
            date := rawParam depDateP }
          (some { routes := []
                  origin := normParam destP
                  destination := normParam originP
                  date := rawParam retDateP }) := by
  have ho : (normParam originP == "") = false := beq_eq_false_iff_ne.mpr hOrigin
  have hd : (normParam destP == "") = false := beq_eq_false_iff_ne.mpr hDest
  have hr : (rawParam retDateP == "") = false := beq_eq_false_iff_ne.mpr hret
  constructor
  · simp [routesGET, ho, hd, hKey, hod, hr]
  · intro rd hrd
    simp [routesGET, ho, hd, hKey, hod, hr, hrd]

/-- Witness for the amended C9 at concrete inputs. -/
theorem routes_return_failure_behavior_w :
    routesGET (some "JFK") (some "LAX") (some "2026-03-01")
      (some "2026-03-08") (some "key123")
      (Except.ok { error := none, data := some [] }) (Except.error ()) =
      RoutesResponse.errorResp 500
        "Failed to fetch flight routes. Please try again." ∧
    ∀ rd : RoutesPayload, rd.error.isSome = true →
      routesGET (some "JFK") (some "LAX") (some "2026-03-01")
        (some "2026-03-08") (some "key123")
        (Except.ok { error := none, data := some [] }) (Except.ok rd) =
        RoutesResponse.success
          { routes := ((some ([] : List AviationStackRoute)).getD
              []).mapIdx (fun i r => transformRoute r i)
            origin := normParam (some "JFK")
            destination := normParam (some "LAX")
            date := rawParam (some "2026-03-01") }
          (some { routes := []
                  origin := normParam (some "LAX")
                  destination := normParam (some "JFK")
                  date := rawParam (some "2026-03-08") }) :=
  routes_return_failure_behavior (some "JFK") (some "LAX")
    (some "2026-03-01") (some "2026-03-08") (some "key123")
    { error := none, data := some [] } (by decide) (by decide) (by decide)
    rfl (by decide)

/-- C10: a search request whose `q` parameter is absent, empty, or
whitespace-only returns HTTP 200 with `{flights: []}` for every API-key
state — the key is never checked and no upstream request is sent. -/
theorem search_empty_query_200 (qP dateP key : Option String)
    (h : normParam qP = "") :
    searchGETPreflight qP dateP key = SearchPreflight.respondFlights 200 [] ∧
    (searchGETPreflight qP dateP key).sendsUpstream = false := by
  constructor <;>
    simp [searchGETPreflight, h, SearchPreflight.sendsUpstream]

/-- Witness for C10: a whitespace-only query with no API key configured
still yields the empty 200 response. -/
theorem search_empty_query_200_w :
    searchGETPreflight (some "   ") (some "2026-03-01") none =
      SearchPreflight.respondFlights 200 [] ∧
    (searchGETPreflight (some "   ") (some "2026-03-01")
      none).sendsUpstream = false :=
  search_empty_query_200 (some "   ") (some "2026-03-01") none (by decide)
